import Mathlib

/-!
# AIFlow orchestration core — shallow embedding and verification

This file embeds the task-lifecycle core of the AIFlow platform in Lean 4:
the Ingress & Callback Controller routes (`src/services/api_gateway/routes.py`),
the Dispatcher (`src/services/task_scheduler/main.py`), and the shared data
model (`src/core/protocols.py`, `src/core/config.py`).  Machine effects
(Redis task store, RabbitMQ publishes, submitter notifications, log events)
are made explicit as returned data; time is modelled in whole seconds as
integers.  Each embedded definition mirrors one Python function; theorems at
the end settle the specification claims against the embedding.
-/

namespace AIFlow

/-- Enum `TaskStatus` from `core/protocols.py`: the four-state task lifecycle enum. -/
inductive TaskStatus where
  | PENDING
  | PROCESSING
  | SUCCESS
  | FAILED
deriving Repr, DecidableEq

/-- Terminal statuses of the lifecycle DAG. -/
def TaskStatus.isTerminal : TaskStatus → Bool
  | .SUCCESS => true
  | .FAILED => true
  | _ => false

/-- Record `ModelSpec` from `core/protocols.py`. -/
structure ModelSpec where
  name : String
  endpoint : Option String := none
  api_key : Option String := none
  version : Option String := none
deriving Repr, DecidableEq

/-- Record `CallbackConfig` from `core/protocols.py`: submitter callback target.
`url` is a required string; Python truthiness of `task.callback.url` is the
check `url ≠ ""`. -/
structure CallbackConfig where
  url : String
  headers : List (String × String) := []
deriving Repr, DecidableEq

/-- JSON-like payload values walked by `_normalize_json_payload_to_minio`.
Mirrors the Python cases: `str`, `bytes`/`bytearray`, `list`, `dict`, and
the leave-as-is primitives (numbers, booleans, `None`). -/
inductive JValue where
  | str (s : String)
  | bytes (b : List Nat)
  | num (n : Int)
  | bool (b : Bool)
  | null
  | arr (xs : List JValue)
  | obj (kvs : List (String × JValue))
deriving Repr

/-- Record `TaskDetail` from `core/protocols.py`: the authoritative TaskRecord kept
in the task-state store.  Timestamps are integer seconds. -/
structure TaskDetail where
  task_id : String
  task_type : String
  model_spec : ModelSpec
  payload : JValue
  inference_params : Option JValue := none
  callback : Option CallbackConfig := none
  status : TaskStatus
  result : Option JValue := none
  error : Option String := none
  created_at : Int
  updated_at : Int
  retry_count : Nat := 0
  max_retries : Nat := 3
  last_error : Option String := none
deriving Repr

/-- The configuration fields of `core/config.py` that the orchestration core
reads (defaults from the `Settings` properties). -/
structure Settings where
  task_ttl : Nat := 86400
  task_max_retries : Nat := 3
  task_max_wait_time : Int := 120
  scheduler_task_max_count : Nat := 2
  scheduler_retry_delay : Nat := 5
  api_gateway_internal_key : String := "internal-key"
  api_gateway_url : String := "http://127.0.0.1:8000"
  minio_bucket_inputs : String := "inputs"
deriving Repr, DecidableEq

/-- Split a character list at every comma (Python `s.split(",")`). -/
def splitCommas : List Char → List (List Char)
  | [] => [[]]
  | c :: cs =>
      let rest := splitCommas cs
      if c = ',' then [] :: rest
      else
        match rest with
        | [] => [[c]]
        | h :: t => (c :: h) :: t

/-- Python `s.strip()` on a character list. -/
def stripChars (cs : List Char) : List Char :=
  ((cs.dropWhile Char.isWhitespace).reverse.dropWhile Char.isWhitespace).reverse

/-- Property `Settings.api_gateway_api_keys` (`core/config.py`): parse the
`API_GATEWAY_API_KEYS` comma-separated string into the list of accepted
keys; an empty raw string yields the empty list. -/
def api_gateway_api_keys (keysStr : String) : List String :=
  if keysStr = "" then []
  else (((splitCommas keysStr.toList).map (fun cs => String.mk (stripChars cs))).filter
    (fun k => k ≠ ""))

/-- Function `verify_api_key` (`api_gateway/routes.py`): with no configured keys every
request is admitted as `"dev-mode"`; otherwise a missing or unrecognized
bearer token is rejected with HTTP 401. `credentials` is the bearer token
carried by the request, when present. -/
def verify_api_key (validApiKeys : List String) (credentials : Option String) :
    Except Nat String :=
  if validApiKeys.isEmpty then .ok "dev-mode"
  else
    match credentials with
    | none => .error 401
    | some apiKey =>
        if apiKey ∉ validApiKeys then .error 401
        else .ok apiKey

/-! ## String helpers used by payload normalization -/

/-- Character-list test that `pre` starts the list `cs`. -/
def charsStart : List Char → List Char → Bool
  | [], _ => true
  | _ :: _, [] => false
  | a :: pre, b :: cs => a = b && charsStart pre cs

/-- Python `s.startswith(pre)` over the character list of `s`. -/
def strStarts (s pre : String) : Bool :=
  charsStart pre.toList s.toList

/-- Occurrence of a pattern somewhere in a character list. -/
def subOccurs (pat : List Char) : List Char → Bool
  | [] => charsStart pat []
  | c :: cs => charsStart pat (c :: cs) || subOccurs pat cs

/-- Python `pat in s` (substring containment). -/
def strContains (s pat : String) : Bool :=
  subOccurs pat.toList s.toList

/-- Python `s.strip()`: drop leading and trailing whitespace. -/
def pyStrip (s : String) : String :=
  String.mk (((s.toList.dropWhile Char.isWhitespace).reverse.dropWhile
    Char.isWhitespace).reverse)

/-- Python `s.lower()` over the character list of `s`. -/
def pyLower (s : String) : String :=
  String.mk (s.toList.map Char.toLower)

/-- Characters accepted by the `^[A-Za-z0-9+/=\r\n]+$` base64 pattern. -/
def isB64Char (c : Char) : Bool :=
  (Char.isAlphanum c) || c = '+' || c = '/' || c = '=' || c = '\r' || c = '\n'

/-- Predicate `b64_re.match(s)`: non-empty and every character in the base64 class. -/
def isB64String (s : String) : Bool :=
  s ≠ "" && s.toList.all isB64Char

/-- Function `_safe_path_hint` (`routes.py`): sanitize a payload path into an object
name component; empty results fall back to `"data"`. -/
def safePathHint (hint : String) : String :=
  let h := if hint = "" then "data" else hint
  let h := ((h.replace "/" "_").replace "\\" "_").replace ".." "."
  let stripped :=
    String.mk (((h.toList.dropWhile (fun c => c = '.' || c = '_')).reverse.dropWhile
      (fun c => c = '.' || c = '_')).reverse)
  if stripped = "" then "data" else stripped

/-- Function `_default_mime_for_hint` (`routes.py`). -/
def defaultMimeForHint (hint : String) : String :=
  let h := pyLower hint
  if strContains h "image" || strContains h "img" || strContains h "mask" then "image/png"
  else if strContains h "audio" then "audio/mpeg"
  else if strContains h "video" then "video/mp4"
  else "application/octet-stream"

/-- Modelled from the spec: Python stdlib `mimetypes.guess_extension` for the
MIME types this code produces (missing from src; only the mapping for the
four produced types matters, spec §6 shows `.png` for `image/png`). -/
def guessExtension (mime : String) : Option String :=
  if mime = "image/png" then some ".png"
  else if mime = "audio/mpeg" then some ".mp3"
  else if mime = "video/mp4" then some ".mp4"
  else if mime = "application/octet-stream" then some ".bin"
  else none

/-- Modelled from the spec: stdlib `base64.b64decode(..., validate=False)`
(missing from src) ignores characters outside the alphabet and fails only on
incorrect padding; modelled as succeeding exactly when the count of retained
characters is a multiple of four. Decoded byte content is never inspected by
the embedded code paths. -/
def b64DecodeOk (s : String) : Bool :=
  (s.toList.filter (fun c => Char.isAlphanum c || c = '+' || c = '/' || c = '=')).length % 4 = 0

/-- Modelled from the spec: `core.storage.minio_client.MinioStore.upload_bytes`
is not under src; per spec §4.4 `uploadBytes(bucket, objectName, bytes,
contentType) → URL`, and §8 scenario 6 the URL has the shape
`http(s)://…/<objectName>`. -/
def uploadBytesModel (bucket objectName : String) : String :=
  "http://object-store/" ++ bucket ++ "/" ++ objectName

/-- Object name `tasks/<task_id>/inputs/<sanitized-hint><ext>` built by
`_upload_bytes_from_base64` and the bytes branch of `_walk`. -/
def objectNameFor (taskId hint mime : String) : String :=
  let ext := (guessExtension mime).getD ".bin"
  "tasks/" ++ taskId ++ "/inputs/" ++ safePathHint hint ++ ext

/-- Function `_upload_bytes_from_base64` (`routes.py`): decode and upload, returning
the object-store URL; invalid base64 returns the raw string unchanged. -/
def uploadBytesFromBase64 (taskId bucket rawB64 hint : String)
    (mimeOverride : Option String) : String :=
  if b64DecodeOk rawB64 then
    let mime := mimeOverride.getD (defaultMimeForHint hint)
    uploadBytesModel bucket (objectNameFor taskId hint mime)
  else rawB64

/-- Python `s.split(",", 1)`: the part before the first comma and the rest. -/
def splitFirstComma (s : String) : String × String :=
  let cs := s.toList
  let pre := cs.takeWhile (fun c => c ≠ ',')
  if pre.length = cs.length then (s, "")
  else (String.mk pre, String.mk (cs.drop (pre.length + 1)))

/-- Slice `header[5 : header.find(";")]` from the data-URI branch: slice from index
5 to the first `';'`, or (Python negative index) to `len - 1` when absent. -/
def dataUriMime (header : String) : String :=
  let cs := header.toList
  match cs.findIdx? (fun c => c = ';') with
  | some i => String.mk ((cs.take i).drop 5)
  | none => String.mk ((cs.take (cs.length - 1)).drop 5)

/-- Media keywords checked by the heuristic-base64 branch. -/
def hintHasMediaKey (hint : String) : Bool :=
  let h := pyLower hint
  strContains h "image" || strContains h "img" || strContains h "mask" ||
    strContains h "audio" || strContains h "video" || strContains h "media" ||
    strContains h "file"

/-- Condition of the data-URI branch of `_walk`:
`s.startswith("data:") and ";base64," in s`. -/
def isDataUriStr (t : String) : Bool :=
  strStarts t "data:" && strContains t ";base64,"

/-- Condition of the heuristic-base64 branch of `_walk`:
`len(s) > 512 and b64_re.match(s) and any(k in hint.lower() for k in …)`. -/
def isHeuristicB64 (t hint : String) : Bool :=
  t.length > 512 && isB64String t && hintHasMediaKey hint

/-- The string case of `_walk` in `_normalize_json_payload_to_minio`:
strip, keep http(s) URLs, convert data URIs and heuristic base64 media. -/
def normalizeStr (taskId bucket hint s : String) : String :=
  let t := pyStrip s
  if strStarts t "http://" || strStarts t "https://" then t
  else if isDataUriStr t then
    let (header, b64) := splitFirstComma t
    uploadBytesFromBase64 taskId bucket b64 hint (some (dataUriMime header))
  else if isHeuristicB64 t hint then
    uploadBytesFromBase64 taskId bucket t hint none
  else t

mutual

/-- Function `_walk` of `_normalize_json_payload_to_minio` (`routes.py`), carrying the
path hint exactly as the source builds it. -/
def walkVal (taskId bucket : String) : JValue → String → JValue
  | .str s, hint => .str (normalizeStr taskId bucket hint s)
  | .bytes _, hint =>
      .str (uploadBytesModel bucket (objectNameFor taskId hint (defaultMimeForHint hint)))
  | .num n, _ => .num n
  | .bool b, _ => .bool b
  | .null, _ => .null
  | .arr xs, hint => .arr (walkArr taskId bucket xs hint 0)
  | .obj kvs, hint => .obj (walkObj taskId bucket kvs hint)

/-- List case of `_walk`: children get hint `f"{hint}_{i}"` (or `str(i)`). -/
def walkArr (taskId bucket : String) : List JValue → String → Nat → List JValue
  | [], _, _ => []
  | v :: vs, hint, i =>
      walkVal taskId bucket v (if hint = "" then toString i else hint ++ "_" ++ toString i)
        :: walkArr taskId bucket vs hint (i + 1)

/-- Dict case of `_walk`: children get hint `f"{hint}.{k}"` (or `k`). -/
def walkObj (taskId bucket : String) :
    List (String × JValue) → String → List (String × JValue)
  | [], _ => []
  | (k, v) :: kvs, hint =>
      (k, walkVal taskId bucket v (if hint = "" then k else hint ++ "." ++ k))
        :: walkObj taskId bucket kvs hint
end

/-- Function `_normalize_json_payload_to_minio` (`routes.py`): walk the payload with
the empty root hint. -/
def normalize_json_payload_to_minio (taskId bucket : String) (obj : JValue) : JValue :=
  walkVal taskId bucket obj ""

end AIFlow

namespace AIFlow

/-! ## Shape of a payload and the normalized-payload predicate -/

/-- Shape of a payload value: containers keep their keys and positions,
every leaf collapses. -/
inductive JShape where
  | leaf
  | arr (xs : List JShape)
  | obj (kvs : List (String × JShape))
deriving Repr

mutual

/-- Compute the shape of a payload value. -/
def shapeOf : JValue → JShape
  | .str _ => .leaf
  | .bytes _ => .leaf
  | .num _ => .leaf
  | .bool _ => .leaf
  | .null => .leaf
  | .arr xs => .arr (shapeOfArr xs)
  | .obj kvs => .obj (shapeOfObj kvs)

/-- Shapes of the elements of a list value. -/
def shapeOfArr : List JValue → List JShape
  | [] => []
  | v :: vs => shapeOf v :: shapeOfArr vs

/-- Shapes of the entries of a dict value. -/
def shapeOfObj : List (String × JValue) → List (String × JShape)
  | [] => []
  | (k, v) :: kvs => (k, shapeOf v) :: shapeOfObj kvs

end

mutual

/-- A payload position is already normalized at a given hint when the string
leaf is whitespace-trimmed and either an http(s) URL or a plain string that
triggers neither conversion branch; byte leaves always need conversion. -/
def normalizedAtVal : JValue → String → Bool
  | .str s, hint =>
      pyStrip s = s &&
        (strStarts s "http://" || strStarts s "https://" ||
          (!(isDataUriStr s) && !(isHeuristicB64 s hint)))
  | .bytes _, _ => false
  | .num _, _ => true
  | .bool _, _ => true
  | .null, _ => true
  | .arr xs, hint => normalizedAtArr xs hint 0
  | .obj kvs, hint => normalizedAtObj kvs hint

/-- List case of the normalized-payload predicate. -/
def normalizedAtArr : List JValue → String → Nat → Bool
  | [], _, _ => true
  | v :: vs, hint, i =>
      normalizedAtVal v (if hint = "" then toString i else hint ++ "_" ++ toString i) &&
        normalizedAtArr vs hint (i + 1)

/-- Dict case of the normalized-payload predicate. -/
def normalizedAtObj : List (String × JValue) → String → Bool
  | [], _ => true
  | (k, v) :: kvs, hint =>
      normalizedAtVal v (if hint = "" then k else hint ++ "." ++ k) &&
        normalizedAtObj kvs hint

end

/-! ## Ingress & Callback Controller: internal callback handler -/

/-- Request body `TaskCallbackRequest` of the internal callback endpoint. -/
structure TaskCallbackRequest where
  task_id : String
  status : TaskStatus
  result : Option JValue := none
  error : Option String := none
deriving Repr

/-- HTTP outcome of a handler: a successful JSON body summarized by its
`status` field, or a raised `HTTPException` with its status code. -/
inductive HandlerOutcome where
  | ok (statusField : String)
  | httpError (code : Nat)
deriving Repr, DecidableEq

/-- Submitter notification issued through `_execute_user_callback`. -/
structure Notification where
  url : String
  status : TaskStatus
  result : Option JValue := none
  error : Option String := none
deriving Repr

/-- Everything the internal-callback handler does, made explicit: the HTTP
outcome, the record finally stored for this `task_id` (`none` when deleted
or absent), the in-memory task object after mutation, whether the envelope
was re-published to the queue, the submitter notification if one was sent,
and the emitted log events. -/
structure CallbackEffects where
  outcome : HandlerOutcome
  stored : Option TaskDetail
  taskObj : Option TaskDetail
  published : Bool
  notified : Option Notification
  logs : List String
deriving Repr

/-- Python `f"{x}"` of an `Optional[str]`: `None` prints as `"None"`. -/
def optStr : Option String → String
  | none => "None"
  | some e => e

/-- Function `task_callback` (`api_gateway/routes.py`, POST
`/internal/task-callback`).  Inputs: the settings, the raw Authorization
header, the request body, the record currently stored under the task id, and
the current time in seconds.  Timeout uses integer elapsed seconds where the
source formats float seconds. -/
def task_callback (st : Settings) (authHeader : String) (req : TaskCallbackRequest)
    (storedTask : Option TaskDetail) (now : Int) : CallbackEffects :=
  if authHeader ≠ "Bearer " ++ st.api_gateway_internal_key then
    { outcome := .httpError 401, stored := storedTask, taskObj := none,
      published := false, notified := none, logs := [] }
  else
    match storedTask with
    | none =>
        -- task not found: log and raise 404
        { outcome := .httpError 404, stored := none, taskObj := none,
          published := false, notified := none,
          logs := ["callback.task_not_found"] }
    | some task =>
        let elapsed : Int := now - task.created_at
        if elapsed > st.task_max_wait_time then
          -- timeout: mark FAILED in memory, delete the record, no notification
          let task' := { task with
            status := .FAILED,
            error := some ("Timeout after " ++ toString elapsed ++ "s" ++
              (if req.status = .FAILED then ": " ++ optStr req.error else "")),
            updated_at := now }
          { outcome := .ok "timeout", stored := none, taskObj := some task',
            published := false, notified := none, logs := ["task.timeout"] }
        else if req.status = .SUCCESS then
          -- success: persist SUCCESS, notify and delete only when a submitter
          -- callback URL is present
          let task' := { task with
            status := .SUCCESS, result := req.result, updated_at := now }
          match task.callback with
          | some cb =>
              if cb.url ≠ "" then
                { outcome := .ok "success", stored := none, taskObj := some task',
                  published := false,
                  notified := some { url := cb.url, status := .SUCCESS,
                                     result := req.result, error := none },
                  logs := ["task.completed", "callback.user"] }
              else
                { outcome := .ok "success", stored := some task',
                  taskObj := some task', published := false, notified := none,
                  logs := ["task.completed"] }
          | none =>
              { outcome := .ok "success", stored := some task', taskObj := some task',
                published := false, notified := none, logs := ["task.completed"] }
        else
          -- failure branch
          if task.retry_count ≥ task.max_retries then
            let task' := { task with
              status := .FAILED,
              error := some ("Max retries exceeded (" ++ toString task.max_retries ++
                "): " ++ optStr req.error),
              last_error := req.error,
              updated_at := now }
            match task.callback with
            | some cb =>
                if cb.url ≠ "" then
                  { outcome := .ok "failed", stored := none, taskObj := some task',
                    published := false,
                    notified := some { url := cb.url, status := .FAILED,
                                       result := none, error := task'.error },
                    logs := ["task.max_retries_exceeded", "callback.user"] }
                else
                  { outcome := .ok "failed", stored := some task',
                    taskObj := some task', published := false, notified := none,
                    logs := ["task.max_retries_exceeded"] }
            | none =>
                { outcome := .ok "failed", stored := some task', taskObj := some task',
                  published := false, notified := none,
                  logs := ["task.max_retries_exceeded"] }
          else
            let task' := { task with
              retry_count := task.retry_count + 1,
              last_error := req.error,
              updated_at := now }
            { outcome := .ok "retrying", stored := some task', taskObj := some task',
              published := true, notified := none, logs := ["task.retrying"] }

/-- Handler `get_task` (`api_gateway/routes.py`, GET `/tasks/{task_id}`):
read-through of the store, 404 when absent. -/
def get_task (storedTask : Option TaskDetail) : Except Nat TaskDetail :=
  match storedTask with
  | none => .error 404
  | some task => .ok task

end AIFlow

namespace AIFlow

/-! ## Ingress: task submission handlers -/

/-- Record `TaskRequest` from `core/protocols.py` (JSON submission body). -/
structure TaskRequest where
  task_type : String
  model_spec : ModelSpec
  payload : JValue
  inference_params : Option JValue := none
  callback : Option CallbackConfig := none
deriving Repr

/-- Record `TaskResponse` from `core/protocols.py`. -/
structure TaskResponse where
  task_id : String
  status : TaskStatus
  message : String := "Task created successfully"
deriving Repr

/-- Observable side effects of a submission handler, in program order. -/
inductive SubmitEvent where
  | log (event : String)
  | publish (task_id task_type : String)
  | persist (task_id : String) (ttl : Nat)
deriving Repr, DecidableEq

/-- Result of a submission handler: the ordered effect trace, the HTTP
outcome, and the TaskRecord written to the store (when one was). -/
structure SubmitResult where
  events : List SubmitEvent
  response : Except Nat TaskResponse
  record : Option TaskDetail
deriving Repr

/-- Handler `create_task_josn` (`api_gateway/routes.py`, POST `/tasks_json`;
the source spells the name this way).  The effect order of the source is:
log `task.created`, normalize the payload, publish the envelope to RabbitMQ,
log `task.published`, then persist the TaskRecord to Redis with the TTL. -/
def create_task_josn (st : Settings) (taskId : String) (now : Int)
    (task_request : Option TaskRequest) : SubmitResult :=
  match task_request with
  | none =>
      { events := [.log "task.created"], response := .error 400, record := none }
  | some req =>
      let finalPayload := normalize_json_payload_to_minio taskId st.minio_bucket_inputs req.payload
      let record : TaskDetail :=
        { task_id := taskId, task_type := req.task_type, model_spec := req.model_spec,
          payload := finalPayload, inference_params := req.inference_params,
          callback := req.callback, status := .PENDING, created_at := now,
          updated_at := now, retry_count := 0, max_retries := st.task_max_retries }
      { events := [.log "task.created", .publish taskId req.task_type,
                   .log "task.published", .persist taskId st.task_ttl],
        response := .ok { task_id := taskId, status := .PENDING },
        record := some record }

/-- One uploaded file of the multipart submission. -/
structure FileUpload where
  filename : Option String := none
  content : List Nat := []
  content_type : Option String := none
deriving Repr

/-- File-URL entry appended to `payload["files"]` by `create_task_form`. -/
def fileUrlEntry (st : Settings) (taskId : String) (idx : Nat) (f : FileUpload) : JValue :=
  let contentType := f.content_type.getD "application/octet-stream"
  let safeFilename :=
    ((f.filename.getD ("file_" ++ toString idx)).replace "/" "_").replace "\\" "_"
  let url := uploadBytesModel st.minio_bucket_inputs
    ("tasks/" ++ taskId ++ "/inputs/" ++ safeFilename)
  .obj [("filename", match f.filename with | none => .null | some n => .str n),
        ("url", .str url),
        ("content_type", .str contentType),
        ("size", .num (f.content.length : Int))]

/-- Handler `create_task_form` (`api_gateway/routes.py`, POST `/tasks_form`).
Form-field JSON parsing is modelled by `Option` inputs (`none` stands for a
missing required field or an unparseable JSON string, both of which the
source answers with 400 before any publish or persist); a missing `payload`
field defaults to the empty dict.  Uploaded files are surfaced under
`payload["files"]` before normalization; then the effect order matches
`create_task_josn`: publish first, persist afterwards. -/
def create_task_form (st : Settings) (taskId : String) (now : Int)
    (task_type : Option String) (model_spec : Option ModelSpec)
    (payload : Option JValue) (inference_params : Option JValue)
    (callback : Option CallbackConfig) (files : List FileUpload) : SubmitResult :=
  match task_type with
  | none => { events := [.log "task.created"], response := .error 400, record := none }
  | some ty =>
    match model_spec with
    | none => { events := [.log "task.created"], response := .error 400, record := none }
    | some ms =>
      let payload0 := payload.getD (.obj [])
      let payload1 :=
        if files.isEmpty then payload0
        else
          match payload0 with
          | .obj kvs =>
              .obj (kvs ++ [("files", .arr ((files.enum.map
                (fun fi => fileUrlEntry st taskId fi.1 fi.2))))])
          | other => other
      let finalPayload := normalize_json_payload_to_minio taskId st.minio_bucket_inputs payload1
      let record : TaskDetail :=
        { task_id := taskId, task_type := ty, model_spec := ms,
          payload := finalPayload, inference_params := inference_params,
          callback := callback, status := .PENDING, created_at := now,
          updated_at := now, retry_count := 0, max_retries := st.task_max_retries }
      { events := [.log "task.created", .publish taskId ty,
                   .log "task.published", .persist taskId st.task_ttl],
        response := .ok { task_id := taskId, status := .PENDING },
        record := some record }

/-- Index of the first publish event in a submission trace. -/
def publishIdx (es : List SubmitEvent) : Option Nat :=
  es.findIdx? (fun e => match e with | .publish _ _ => true | _ => false)

/-- Index of the first persist event in a submission trace. -/
def persistIdx (es : List SubmitEvent) : Option Nat :=
  es.findIdx? (fun e => match e with | .persist _ _ => true | _ => false)

/-- The record-persisted-before-publish property the spec asserts of Submit. -/
def persistBeforePublish (es : List SubmitEvent) : Bool :=
  match persistIdx es, publishIdx es with
  | some i, some j => i < j
  | _, _ => false

/-! ## Dispatcher (`task_scheduler/main.py`) -/

/-- Probed view of one model-forwarder instance: registry data plus the
answers of `/api/v1/supported-tasks` and `/status`. -/
structure ForwarderInfo where
  service_id : String
  url : String
  supported : List String
  busy : Bool
  current_task : Option String := none
  pending : Nat := 0
deriving Repr, DecidableEq

/-- Candidate entry collected by `_select_forwarder`. -/
structure Cand where
  url : String
  service_id : String
  pending : Nat
deriving Repr, DecidableEq

/-- Candidate-collection pass of `_select_forwarder`: one sweep over the
probed forwarders, in order, producing the idle and low-load candidate
lists.  A busy forwarder enters the low-load list only when it reports a
(non-empty) current task and its pending count is within the configured
threshold; otherwise the loop falls through to `continue`. -/
def collectCandidates (taskType : String) (maxCount : Nat) :
    List ForwarderInfo → List Cand × List Cand
  | [] => ([], [])
  | f :: rest =>
      let (idles, lows) := collectCandidates taskType maxCount rest
      if taskType ∈ f.supported then
        if !f.busy then
          ({ url := f.url, service_id := f.service_id, pending := f.pending } :: idles, lows)
        else
          match f.current_task with
          | some ct =>
              if ct ≠ "" && f.pending ≤ maxCount then
                (idles, { url := f.url, service_id := f.service_id, pending := f.pending } :: lows)
              else (idles, lows)
          | none => (idles, lows)
      else (idles, lows)

/-- One comparison step of Python `min` with the pending-count key: keep the
earlier element unless the new one is strictly smaller. -/
def minStep (acc : Option Cand) (c : Cand) : Option Cand :=
  match acc with
  | none => some c
  | some b => if c.pending < b.pending then some c else some b

/-- Python `min(candidates, key=lambda x: x["pending_tasks_count"])`: the
first element attaining the minimal pending count. -/
def minByPending (l : List Cand) : Option Cand :=
  l.foldl minStep none

/-- Function `_select_forwarder` (`task_scheduler/main.py`): prefer the idle
candidate with the fewest pending tasks, else the low-load candidate with
the fewest pending tasks, else no selection. -/
def selectForwarder (taskType : String) (maxCount : Nat)
    (forwarders : List ForwarderInfo) : Option String :=
  if forwarders.isEmpty then none
  else
    let (idles, lows) := collectCandidates taskType maxCount forwarders
    match minByPending idles with
    | some c => some c.url
    | none =>
        match minByPending lows with
        | some c => some c.url
        | none => none

/-- Queue message body as the dispatcher sees it: either a well-formed task
envelope or an unparseable body (`json.loads` raises). -/
inductive QueueBody where
  | valid (task_id task_type : String)
  | malformed
deriving Repr, DecidableEq

/-- Broker action taken on the consumed message. -/
inductive MsgAction where
  | ack
  | rejectRequeue
  | rejectNoRequeue
deriving Repr, DecidableEq

/-- Observable outcome of `_process_task_message`: the broker action, the
requeue delay slept before rejecting (seconds), and the task-store write
performed after a successful dispatch, if any. -/
structure ProcessResult where
  action : MsgAction
  delay : Nat
  storeWrite : Option TaskDetail
deriving Repr

/-- Function `TaskScheduler._process_task_message` (`task_scheduler/main.py`).
`schedOk` is the outcome of `_schedule_task` (worker selection plus the POST
to the worker); `storedTask` is the record currently under the task id.  A
malformed body raises inside the `try`, landing in the generic handler that
rejects with requeue and no delay.  After a successful dispatch the record,
when present, is rewritten with status PROCESSING regardless of its current
status. -/
def process_task_message (st : Settings) (shuttingDown : Bool) (body : QueueBody)
    (schedOk : Bool) (storedTask : Option TaskDetail) (now : Int) : ProcessResult :=
  if shuttingDown then
    { action := .rejectRequeue, delay := 0, storeWrite := none }
  else
    match body with
    | .malformed =>
        { action := .rejectRequeue, delay := 0, storeWrite := none }
    | .valid _ _ =>
        if schedOk then
          { action := .ack, delay := 0,
            storeWrite :=
              match storedTask with
              | some task => some { task with status := .PROCESSING, updated_at := now }
              | none => none }
        else
          { action := .rejectRequeue, delay := st.scheduler_retry_delay, storeWrite := none }

end AIFlow

namespace AIFlow

/-- Idle-candidate admission test of the collection pass. -/
def isIdleEligible (ty : String) (f : ForwarderInfo) : Bool :=
  decide (ty ∈ f.supported) && !f.busy

/-- Low-load admission test of the collection pass: busy, reporting a
non-empty current task, and within the pending threshold. -/
def isLowLoadEligible (ty : String) (mx : Nat) (f : ForwarderInfo) : Bool :=
  decide (ty ∈ f.supported) && f.busy &&
    (match f.current_task with
     | some ct => ct ≠ "" && f.pending ≤ mx
     | none => false)

/-- Candidate entry built from a probed forwarder. -/
def candOf (f : ForwarderInfo) : Cand :=
  { url := f.url, service_id := f.service_id, pending := f.pending }

/-- Default configuration (the property defaults of `core/config.py`). -/
def defaultSettings : Settings := {}

/-- Sample model specification for concrete scenarios. -/
def sampleModelSpec : ModelSpec := { name := "gpt-5" }

/-- Sample task record (no submitter callback configured). -/
def sampleTask : TaskDetail :=
  { task_id := "t1", task_type := "openai-gpt5", model_spec := sampleModelSpec,
    payload := .null, status := .PROCESSING, created_at := 0, updated_at := 0 }

/-- Sample task record with a submitter callback URL. -/
def sampleTaskCb : TaskDetail :=
  { sampleTask with callback := some { url := "http://sub/cb" } }

/-- Sample JSON submission request. -/
def sampleRequest : TaskRequest :=
  { task_type := "openai-gpt5", model_spec := sampleModelSpec, payload := .obj [] }

/-- Driver for spec scenario "worker always fails": feed FAILED internal
callbacks through the handler, threading the stored record, and count how
many times the handler re-publishes the envelope.  Each re-publish is
answered by exactly one further FAILED callback. -/
def alwaysFailCallbacks (st : Settings) (err : Option String) (now : Int) :
    Option TaskDetail → Nat → Nat
  | _, 0 => 0
  | store, Nat.succ fuel =>
      let eff := task_callback st ("Bearer " ++ st.api_gateway_internal_key)
        { task_id := "", status := .FAILED, error := err } store now
      if eff.published then 1 + alwaysFailCallbacks st err now eff.stored fuel
      else 0

/-! ## Helper lemmas: payload walk -/

mutual

/-- The payload walk preserves the shape of the value. -/
theorem shape_walkVal (tid b : String) : ∀ (v : JValue) (hint : String),
    shapeOf (walkVal tid b v hint) = shapeOf v
  | .str _, _ => rfl
  | .bytes _, _ => rfl
  | .num _, _ => rfl
  | .bool _, _ => rfl
  | .null, _ => rfl
  | .arr xs, hint => by
      simp only [walkVal, shapeOf]
      rw [shape_walkArr tid b xs hint 0]
  | .obj kvs, hint => by
      simp only [walkVal, shapeOf]
      rw [shape_walkObj tid b kvs hint]

/-- List case of shape preservation. -/
theorem shape_walkArr (tid b : String) : ∀ (xs : List JValue) (hint : String) (i : Nat),
    shapeOfArr (walkArr tid b xs hint i) = shapeOfArr xs
  | [], _, _ => rfl
  | v :: vs, hint, i => by
      simp only [walkArr, shapeOfArr]
      rw [shape_walkVal tid b v _, shape_walkArr tid b vs hint (i + 1)]

/-- Dict case of shape preservation. -/
theorem shape_walkObj (tid b : String) : ∀ (kvs : List (String × JValue)) (hint : String),
    shapeOfObj (walkObj tid b kvs hint) = shapeOfObj kvs
  | [], _ => rfl
  | (k, v) :: kvs, hint => by
      simp only [walkObj, shapeOfObj]
      rw [shape_walkVal tid b v _, shape_walkObj tid b kvs hint]

end

/-- On a trimmed string that is an http(s) URL or triggers neither conversion
branch, the string case of the walk is the identity. -/
theorem normalizeStr_id (tid b hint s : String) (htrim : pyStrip s = s)
    (hcase : (strStarts s "http://" || strStarts s "https://" ||
      (!(isDataUriStr s) && !(isHeuristicB64 s hint))) = true) :
    normalizeStr tid b hint s = s := by
  unfold normalizeStr
  rw [htrim]
  rcases Bool.or_eq_true _ _ |>.mp hcase with hurl | hplain
  · rw [if_pos hurl]
  · by_cases hurl : (strStarts s "http://" || strStarts s "https://") = true
    · rw [if_pos hurl]
    · rw [if_neg hurl]
      rcases Bool.and_eq_true _ _ |>.mp hplain with ⟨hdata, hheur⟩
      rw [Bool.not_eq_true' ] at hdata hheur
      rw [if_neg (by rw [hdata]; exact Bool.false_ne_true)]
      rw [if_neg (by rw [hheur]; exact Bool.false_ne_true)]

mutual

/-- A payload that is already normalized at its hint is a fixed point of the
walk. -/
theorem normalized_walkVal (tid b : String) : ∀ (v : JValue) (hint : String),
    normalizedAtVal v hint = true → walkVal tid b v hint = v
  | .str s, hint, h => by
      simp only [normalizedAtVal, Bool.and_eq_true, decide_eq_true_eq] at h
      simp only [walkVal]
      rw [normalizeStr_id tid b hint s h.1 h.2]
  | .num _, _, _ => rfl
  | .bool _, _, _ => rfl
  | .null, _, _ => rfl
  | .arr xs, hint, h => by
      simp only [walkVal]
      rw [normalized_walkArr tid b xs hint 0 (by simpa [normalizedAtVal] using h)]
  | .obj kvs, hint, h => by
      simp only [walkVal]
      rw [normalized_walkObj tid b kvs hint (by simpa [normalizedAtVal] using h)]

/-- List case of the fixed-point property. -/
theorem normalized_walkArr (tid b : String) :
    ∀ (xs : List JValue) (hint : String) (i : Nat),
    normalizedAtArr xs hint i = true → walkArr tid b xs hint i = xs
  | [], _, _, _ => rfl
  | v :: vs, hint, i, h => by
      simp only [normalizedAtArr, Bool.and_eq_true] at h
      simp only [walkArr]
      rw [normalized_walkVal tid b v _ h.1, normalized_walkArr tid b vs hint (i + 1) h.2]

/-- Dict case of the fixed-point property. -/
theorem normalized_walkObj (tid b : String) :
    ∀ (kvs : List (String × JValue)) (hint : String),
    normalizedAtObj kvs hint = true → walkObj tid b kvs hint = kvs
  | [], _, _ => rfl
  | (k, v) :: kvs, hint, h => by
      simp only [normalizedAtObj, Bool.and_eq_true] at h
      simp only [walkObj]
      rw [normalized_walkVal tid b v _ h.1, normalized_walkObj tid b kvs hint h.2]

end

/-! ## Helper lemmas: worker selection -/

/-- Folding `minStep` from a seeded candidate yields a candidate drawn from
the seed or the list, no larger than the seed and minimal for the list. -/
theorem minStep_foldl_spec : ∀ (l : List Cand) (b : Cand),
    ∃ c, l.foldl minStep (some b) = some c ∧ (c = b ∨ c ∈ l) ∧
      c.pending ≤ b.pending ∧ ∀ d ∈ l, c.pending ≤ d.pending := by
  intro l
  induction l with
  | nil => exact fun b => ⟨b, rfl, Or.inl rfl, Nat.le_refl _, by simp⟩
  | cons a l ih =>
      intro b
      by_cases hab : a.pending < b.pending
      · obtain ⟨c, hfold, hmem, hle, hmin⟩ := ih a
        refine ⟨c, ?_, ?_, ?_, ?_⟩
        · simpa [minStep, hab] using hfold
        · rcases hmem with rfl | h
          · exact Or.inr (List.mem_cons_self _ _)
          · exact Or.inr (List.mem_cons_of_mem _ h)
        · exact Nat.le_trans hle (Nat.le_of_lt hab)
        · intro d hd
          rcases List.mem_cons.mp hd with rfl | hd
          · exact hle
          · exact hmin d hd
      · obtain ⟨c, hfold, hmem, hle, hmin⟩ := ih b
        refine ⟨c, ?_, ?_, hle, ?_⟩
        · simpa [minStep, hab] using hfold
        · rcases hmem with rfl | h
          · exact Or.inl rfl
          · exact Or.inr (List.mem_cons_of_mem _ h)
        · intro d hd
          rcases List.mem_cons.mp hd with rfl | hd
          · exact Nat.le_trans hle (Nat.le_of_not_lt hab)
          · exact hmin d hd

/-- On a non-empty list, `minByPending` returns a member attaining the
minimal pending count. -/
theorem minByPending_spec (a : Cand) (l : List Cand) :
    ∃ c ∈ a :: l, minByPending (a :: l) = some c ∧
      ∀ d ∈ a :: l, c.pending ≤ d.pending := by
  obtain ⟨c, hfold, hmem, hle, hmin⟩ := minStep_foldl_spec l a
  refine ⟨c, ?_, ?_, ?_⟩
  · rcases hmem with rfl | h
    · exact List.mem_cons_self _ _
    · exact List.mem_cons_of_mem _ h
  · simpa [minByPending, minStep] using hfold
  · intro d hd
    rcases List.mem_cons.mp hd with rfl | hd
    · exact hle
    · exact hmin d hd

/-- The collection pass equals filtering by the two admission tests. -/
theorem collectCandidates_eq (ty : String) (mx : Nat) : ∀ (fs : List ForwarderInfo),
    collectCandidates ty mx fs =
      ((fs.filter (isIdleEligible ty)).map candOf,
       (fs.filter (isLowLoadEligible ty mx)).map candOf) := by
  intro fs
  induction fs with
  | nil => rfl
  | cons f rest ih =>
      by_cases hsup : ty ∈ f.supported
      · cases hbusy : f.busy
        · simp [collectCandidates, ih, hsup, hbusy, isIdleEligible, isLowLoadEligible,
            List.filter_cons, candOf]
        · cases hct : f.current_task with
          | none =>
              simp [collectCandidates, ih, hsup, hbusy, hct, isIdleEligible,
                isLowLoadEligible, List.filter_cons]
          | some ct =>
              by_cases hok : ct ≠ "" ∧ f.pending ≤ mx
              · simp [collectCandidates, ih, hsup, hbusy, hct, hok, hok.1, hok.2,
                  isIdleEligible, isLowLoadEligible, List.filter_cons, candOf]
              · rw [Classical.not_and_iff_or_not_not] at hok
                rcases hok with h1 | h2
                · simp only [ne_eq, Classical.not_not] at h1
                  simp [collectCandidates, ih, hsup, hbusy, hct, h1, isIdleEligible,
                    isLowLoadEligible, List.filter_cons]
                · simp [collectCandidates, ih, hsup, hbusy, hct, h2, isIdleEligible,
                    isLowLoadEligible, List.filter_cons]
      · simp [collectCandidates, ih, hsup, isIdleEligible, isLowLoadEligible,
          List.filter_cons]

end AIFlow

namespace AIFlow

/-! ## Claim theorems -/

/-- Claim C10: when the configured API-key set is empty the submitter-API
authentication admits every request (development mode, no token checked);
when it is non-empty, a missing or unrecognized bearer token is rejected
with HTTP 401. -/
theorem verify_api_key_modes (keysStr : String) (cred : Option String) :
    (api_gateway_api_keys keysStr = [] →
      verify_api_key (api_gateway_api_keys keysStr) cred = .ok "dev-mode") ∧
    (api_gateway_api_keys keysStr ≠ [] →
      (cred = none ∨ ∃ k, cred = some k ∧ k ∉ api_gateway_api_keys keysStr) →
      verify_api_key (api_gateway_api_keys keysStr) cred = .error 401) := by
  constructor
  · intro h
    simp [verify_api_key, h]
  · intro hne hcred
    rcases hcred with rfl | ⟨k, rfl, hk⟩
    · simp [verify_api_key, List.isEmpty_iff, hne]
    · simp [verify_api_key, List.isEmpty_iff, hne, hk]

/-- Witness for C10 at the empty key string and at a two-key configuration
with an unrecognized token. -/
theorem verify_api_key_modes_witness :
    verify_api_key (api_gateway_api_keys "") none = .ok "dev-mode" ∧
    verify_api_key (api_gateway_api_keys "k1,k2") (some "bad") = .error 401 :=
  ⟨(verify_api_key_modes "" none).1 (by decide),
   (verify_api_key_modes "k1,k2" (some "bad")).2 (by decide)
     (Or.inr ⟨"bad", rfl, by decide⟩)⟩

/-- Claim C8 (amended): an authenticated internal callback whose task id has
no stored record logs the event and rejects the request with HTTP 404 (it
does not answer with a normal "discarded" body); no publish, notification or
store write happens. -/
theorem task_callback_missing_record (st : Settings) (req : TaskCallbackRequest) (now : Int) :
    task_callback st ("Bearer " ++ st.api_gateway_internal_key) req none now =
      { outcome := .httpError 404, stored := none, taskObj := none,
        published := false, notified := none, logs := ["callback.task_not_found"] } := by
  unfold task_callback
  rw [if_neg (by simp)]

/-- Counterexample for C8 as stated: the handler fails the request with 404
rather than returning a normal response. -/
theorem task_callback_missing_record_cex :
    (task_callback defaultSettings "Bearer internal-key"
      { task_id := "t-gone", status := .SUCCESS } none 0).outcome = .httpError 404 := rfl

/-- Claim C6 (amended): a malformed queue message lands in the generic
exception handler, which rejects it WITH requeue (and no delay), so
malformed messages are redelivered; scheduling failures for well-formed
messages are rejected with requeue after the configured delay. -/
theorem process_message_requeue_behavior (st : Settings) (now : Int) :
    (∀ (schedOk : Bool) (stored : Option TaskDetail),
      process_task_message st false .malformed schedOk stored now =
        { action := .rejectRequeue, delay := 0, storeWrite := none }) ∧
    (∀ (tid ty : String) (stored : Option TaskDetail),
      process_task_message st false (.valid tid ty) false stored now =
        { action := .rejectRequeue, delay := st.scheduler_retry_delay, storeWrite := none }) :=
  ⟨fun _ _ => rfl, fun _ _ _ => rfl⟩

/-- Counterexample for C6 as stated: a malformed message is requeued, not
rejected-without-requeue. -/
theorem malformed_message_requeued :
    (process_task_message defaultSettings false .malformed false none 0).action = .rejectRequeue ∧
    (process_task_message defaultSettings false .malformed false none 0).action ≠ .rejectNoRequeue :=
  ⟨rfl, by decide⟩

/-- Claim C5 (amended): a successful submission publishes the envelope to
the queue FIRST and persists the TaskRecord with its TTL AFTERWARDS, in
both the JSON and the multipart handlers (publish at trace index 1, persist
at trace index 3). -/
theorem submit_publish_then_persist (st : Settings) (taskId : String) (now : Int) :
    (∀ req : TaskRequest,
      (create_task_josn st taskId now (some req)).events =
        [.log "task.created", .publish taskId req.task_type,
         .log "task.published", .persist taskId st.task_ttl] ∧
      publishIdx (create_task_josn st taskId now (some req)).events = some 1 ∧
      persistIdx (create_task_josn st taskId now (some req)).events = some 3) ∧
    (∀ (ty : String) (ms : ModelSpec) (payload inference_params : Option JValue)
        (cb : Option CallbackConfig) (files : List FileUpload),
      (create_task_form st taskId now (some ty) (some ms) payload inference_params cb files).events =
        [.log "task.created", .publish taskId ty,
         .log "task.published", .persist taskId st.task_ttl] ∧
      publishIdx (create_task_form st taskId now (some ty) (some ms) payload
        inference_params cb files).events = some 1 ∧
      persistIdx (create_task_form st taskId now (some ty) (some ms) payload
        inference_params cb files).events = some 3) :=
  ⟨fun _ => ⟨rfl, rfl, rfl⟩, fun _ _ _ _ _ _ => ⟨rfl, rfl, rfl⟩⟩

/-- Counterexample for C5 as stated: on a successful JSON submission the
persist does not precede the publish. -/
theorem submit_persist_not_first :
    persistBeforePublish (create_task_josn defaultSettings "t1" 0 (some sampleRequest)).events =
      false ∧
    (create_task_josn defaultSettings "t1" 0 (some sampleRequest)).response =
      .ok { task_id := "t1", status := .PENDING, message := "Task created successfully" } :=
  ⟨rfl, rfl⟩

/-- Claim C2 (code bug): neither guard exists.  A FAILED internal callback
for a record already terminal (here SUCCESS, retained because no submitter
callback URL is configured) is re-published to the queue, and the
dispatcher's PROCESSING write happens even when the stored record is
terminal, regressing a FAILED record to PROCESSING. -/
theorem terminal_task_republished :
    ({ sampleTask with status := .SUCCESS } : TaskDetail).status.isTerminal = true ∧
    (task_callback defaultSettings "Bearer internal-key"
      { task_id := "t1", status := .FAILED, error := some "late failure" }
      (some { sampleTask with status := .SUCCESS }) 0).published = true ∧
    ((process_task_message defaultSettings false (.valid "t1" "openai-gpt5") true
      (some { sampleTask with status := .FAILED }) 0).storeWrite.map
        (fun t => t.status)) = some .PROCESSING :=
  ⟨rfl, rfl, rfl⟩

/-- Claim C1: a callback arriving after `task_max_wait_time` terminates the
task regardless of the reported outcome: the in-memory record is marked
FAILED with a "Timeout after …" error, the stored record is deleted, the
submitter is not notified and nothing is re-published. -/
theorem task_callback_timeout (st : Settings) (req : TaskCallbackRequest)
    (task : TaskDetail) (now : Int)
    (h : now - task.created_at > st.task_max_wait_time) :
    task_callback st ("Bearer " ++ st.api_gateway_internal_key) req (some task) now =
      { outcome := .ok "timeout", stored := none,
        taskObj := some { task with
                          status := .FAILED,
                          error := some ("Timeout after " ++ toString (now - task.created_at) ++
                            "s" ++ (if req.status = .FAILED then ": " ++ optStr req.error else "")),
                          updated_at := now },
        published := false, notified := none, logs := ["task.timeout"] } := by
  unfold task_callback
  rw [if_neg (by simp)]
  dsimp only
  rw [if_pos h]

/-- Witness for C1 with a SUCCESS callback arriving 1000 seconds after
creation against the 120-second default deadline. -/
theorem task_callback_timeout_witness :
    (1000 : Int) - sampleTask.created_at > defaultSettings.task_max_wait_time ∧
    task_callback defaultSettings ("Bearer " ++ defaultSettings.api_gateway_internal_key)
      { task_id := "t1", status := .SUCCESS } (some sampleTask) 1000 =
      { outcome := .ok "timeout", stored := none,
        taskObj := some { sampleTask with
                          status := .FAILED,
                          error := some ("Timeout after " ++
                            toString ((1000 : Int) - sampleTask.created_at) ++ "s" ++
                            (if ({ task_id := "t1", status := .SUCCESS } :
                                TaskCallbackRequest).status = .FAILED then
                              ": " ++ optStr ({ task_id := "t1", status := .SUCCESS } :
                                TaskCallbackRequest).error
                            else "")),
                          updated_at := 1000 },
        published := false, notified := none, logs := ["task.timeout"] } :=
  ⟨by decide, task_callback_timeout defaultSettings
    { task_id := "t1", status := .SUCCESS } sampleTask 1000 (by decide)⟩

/-- Equality of the handler result on the FAILED retry branch (retry count
below the limit): increment by one, store the error, persist, re-publish,
no delete and no notification. -/
theorem task_callback_failed_retry_eq (st : Settings) (req : TaskCallbackRequest)
    (task : TaskDetail) (now : Int)
    (hf : req.status = .FAILED)
    (ht : ¬ now - task.created_at > st.task_max_wait_time)
    (hlt : task.retry_count < task.max_retries) :
    task_callback st ("Bearer " ++ st.api_gateway_internal_key) req (some task) now =
      { outcome := .ok "retrying",
        stored := some { task with
                         retry_count := task.retry_count + 1,
                         last_error := req.error, updated_at := now },
        taskObj := some { task with
                          retry_count := task.retry_count + 1,
                          last_error := req.error, updated_at := now },
        published := true, notified := none, logs := ["task.retrying"] } := by
  unfold task_callback
  rw [if_neg (by simp)]
  dsimp only
  rw [if_neg ht, if_neg (by simp [hf]), if_neg (Nat.not_le.mpr hlt)]

/-- Behavior of the handler on the FAILED terminal branch (retry count at or
above the limit): terminal FAILED record with a "Max retries exceeded"
error, no re-publish; the submitter notification and the record deletion
happen only when a submitter callback URL is present. -/
theorem task_callback_failed_terminal_spec (st : Settings) (req : TaskCallbackRequest)
    (task : TaskDetail) (now : Int)
    (hf : req.status = .FAILED)
    (ht : ¬ now - task.created_at > st.task_max_wait_time)
    (hge : task.retry_count ≥ task.max_retries) :
    (task_callback st ("Bearer " ++ st.api_gateway_internal_key) req (some task) now).published = false ∧
    (task_callback st ("Bearer " ++ st.api_gateway_internal_key) req (some task) now).taskObj =
      some { task with
             status := .FAILED,
             error := some ("Max retries exceeded (" ++ toString task.max_retries ++ "): " ++
               optStr req.error),
             last_error := req.error, updated_at := now } ∧
    ((task_callback st ("Bearer " ++ st.api_gateway_internal_key) req (some task) now).stored = none ∨
      (task_callback st ("Bearer " ++ st.api_gateway_internal_key) req (some task) now).stored =
        (task_callback st ("Bearer " ++ st.api_gateway_internal_key) req (some task) now).taskObj) ∧
    (∀ cb, task.callback = some cb → cb.url ≠ "" →
      (task_callback st ("Bearer " ++ st.api_gateway_internal_key) req (some task) now).stored = none ∧
      (task_callback st ("Bearer " ++ st.api_gateway_internal_key) req (some task) now).notified =
        some { url := cb.url, status := .FAILED, result := none,
               error := some ("Max retries exceeded (" ++ toString task.max_retries ++ "): " ++
                 optStr req.error) }) ∧
    ((task.callback = none ∨ ∃ cb, task.callback = some cb ∧ cb.url = "") →
      (task_callback st ("Bearer " ++ st.api_gateway_internal_key) req (some task) now).stored =
        (task_callback st ("Bearer " ++ st.api_gateway_internal_key) req (some task) now).taskObj ∧
      (task_callback st ("Bearer " ++ st.api_gateway_internal_key) req (some task) now).notified = none) := by
  rcases hcb : task.callback with _ | cb
  · have key : task_callback st ("Bearer " ++ st.api_gateway_internal_key) req (some task) now =
        { outcome := .ok "failed",
          stored := some { task with
                           status := .FAILED,
                           error := some ("Max retries exceeded (" ++ toString task.max_retries ++
                             "): " ++ optStr req.error),
                           last_error := req.error, updated_at := now },
          taskObj := some { task with
                            status := .FAILED,
                            error := some ("Max retries exceeded (" ++ toString task.max_retries ++
                              "): " ++ optStr req.error),
                            last_error := req.error, updated_at := now },
          published := false, notified := none, logs := ["task.max_retries_exceeded"] } := by
      unfold task_callback
      rw [if_neg (by simp)]
      dsimp only
      rw [if_neg ht, if_neg (by simp [hf]), if_pos hge, hcb]
    rw [hcb] at key
    refine ⟨by rw [key], by rw [key], Or.inr (by rw [key]), ?_, fun _ => ⟨by rw [key], by rw [key]⟩⟩
    intro cb' hcb' _
    exact Option.noConfusion hcb'
  · by_cases hurl : cb.url ≠ ""
    · have key : task_callback st ("Bearer " ++ st.api_gateway_internal_key) req (some task) now =
          { outcome := .ok "failed", stored := none,
            taskObj := some { task with
                              status := .FAILED,
                              error := some ("Max retries exceeded (" ++ toString task.max_retries ++
                                "): " ++ optStr req.error),
                              last_error := req.error, updated_at := now },
            published := false,
            notified := some { url := cb.url, status := .FAILED, result := none,
                               error := some ("Max retries exceeded (" ++
                                 toString task.max_retries ++ "): " ++ optStr req.error) },
            logs := ["task.max_retries_exceeded", "callback.user"] } := by
        unfold task_callback
        rw [if_neg (by simp)]
        dsimp only
        rw [if_neg ht, if_neg (by simp [hf]), if_pos hge, hcb]
        dsimp only
        rw [if_pos hurl]
      rw [hcb] at key
      refine ⟨by rw [key], by rw [key], Or.inl (by rw [key]), ?_, ?_⟩
      · intro cb' hcb' _
        have hc : cb' = cb := (Option.some.inj hcb').symm
        subst hc
        exact ⟨by rw [key], by rw [key]⟩
      · intro hnone
        rcases hnone with hn | ⟨cb', hcb', hurl'⟩
        · exact Option.noConfusion hn
        · have hc : cb' = cb := (Option.some.inj hcb').symm
          subst hc
          exact absurd hurl' hurl
    · have hurl0 : cb.url = "" := by simpa using hurl
      have key : task_callback st ("Bearer " ++ st.api_gateway_internal_key) req (some task) now =
          { outcome := .ok "failed",
            stored := some { task with
                             status := .FAILED,
                             error := some ("Max retries exceeded (" ++ toString task.max_retries ++
                               "): " ++ optStr req.error),
                             last_error := req.error, updated_at := now },
            taskObj := some { task with
                              status := .FAILED,
                              error := some ("Max retries exceeded (" ++ toString task.max_retries ++
                                "): " ++ optStr req.error),
                              last_error := req.error, updated_at := now },
            published := false, notified := none, logs := ["task.max_retries_exceeded"] } := by
        unfold task_callback
        rw [if_neg (by simp)]
        dsimp only
        rw [if_neg ht, if_neg (by simp [hf]), if_pos hge, hcb]
        dsimp only
        rw [if_neg hurl]
      rw [hcb] at key
      refine ⟨by rw [key], by rw [key], Or.inr (by rw [key]), ?_, fun _ => ⟨by rw [key], by rw [key]⟩⟩
      intro cb' hcb' hu
      have hc : cb' = cb := (Option.some.inj hcb').symm
      subst hc
      exact absurd hurl0 hu

end AIFlow

namespace AIFlow

/-- Success-branch behavior of the handler (Claim C4, amended): the record
is marked SUCCESS with the reported result and persisted; when a submitter
callback URL is present the submitter is notified and the record deleted
(a subsequent Get answers 404); with no URL the SUCCESS record is retained
and nobody is notified. -/
theorem task_callback_success_spec (st : Settings) (req : TaskCallbackRequest)
    (task : TaskDetail) (now : Int)
    (hs : req.status = .SUCCESS)
    (ht : ¬ now - task.created_at > st.task_max_wait_time) :
    (task_callback st ("Bearer " ++ st.api_gateway_internal_key) req (some task) now).published = false ∧
    (task_callback st ("Bearer " ++ st.api_gateway_internal_key) req (some task) now).taskObj =
      some { task with status := .SUCCESS, result := req.result, updated_at := now } ∧
    (∀ cb, task.callback = some cb → cb.url ≠ "" →
      (task_callback st ("Bearer " ++ st.api_gateway_internal_key) req (some task) now).stored = none ∧
      get_task (task_callback st ("Bearer " ++ st.api_gateway_internal_key) req (some task) now).stored =
        .error 404 ∧
      (task_callback st ("Bearer " ++ st.api_gateway_internal_key) req (some task) now).notified =
        some { url := cb.url, status := .SUCCESS, result := req.result, error := none }) ∧
    ((task.callback = none ∨ ∃ cb, task.callback = some cb ∧ cb.url = "") →
      (task_callback st ("Bearer " ++ st.api_gateway_internal_key) req (some task) now).stored =
        some { task with status := .SUCCESS, result := req.result, updated_at := now } ∧
      (task_callback st ("Bearer " ++ st.api_gateway_internal_key) req (some task) now).notified = none) := by
  rcases hcb : task.callback with _ | cb
  · have key : task_callback st ("Bearer " ++ st.api_gateway_internal_key) req (some task) now =
        { outcome := .ok "success",
          stored := some { task with status := .SUCCESS, result := req.result, updated_at := now },
          taskObj := some { task with status := .SUCCESS, result := req.result, updated_at := now },
          published := false, notified := none, logs := ["task.completed"] } := by
      unfold task_callback
      rw [if_neg (by simp)]
      dsimp only
      rw [if_neg ht, if_pos hs, hcb]
    rw [hcb] at key
    refine ⟨by rw [key], by rw [key], ?_, fun _ => ⟨by rw [key], by rw [key]⟩⟩
    intro cb' hcb' _
    exact Option.noConfusion hcb'
  · by_cases hurl : cb.url ≠ ""
    · have key : task_callback st ("Bearer " ++ st.api_gateway_internal_key) req (some task) now =
          { outcome := .ok "success", stored := none,
            taskObj := some { task with status := .SUCCESS, result := req.result, updated_at := now },
            published := false,
            notified := some { url := cb.url, status := .SUCCESS, result := req.result, error := none },
            logs := ["task.completed", "callback.user"] } := by
        unfold task_callback
        rw [if_neg (by simp)]
        dsimp only
        rw [if_neg ht, if_pos hs, hcb]
        dsimp only
        rw [if_pos hurl]
      rw [hcb] at key
      refine ⟨by rw [key], by rw [key], ?_, ?_⟩
      · intro cb' hcb' _
        have hc : cb' = cb := (Option.some.inj hcb').symm
        subst hc
        exact ⟨by rw [key], by simp [key, get_task], by rw [key]⟩
      · intro hnone
        rcases hnone with hn | ⟨cb', hcb', hurl'⟩
        · exact Option.noConfusion hn
        · have hc : cb' = cb := (Option.some.inj hcb').symm
          subst hc
          exact absurd hurl' hurl
    · have hurl0 : cb.url = "" := by simpa using hurl
      have key : task_callback st ("Bearer " ++ st.api_gateway_internal_key) req (some task) now =
          { outcome := .ok "success",
            stored := some { task with status := .SUCCESS, result := req.result, updated_at := now },
            taskObj := some { task with status := .SUCCESS, result := req.result, updated_at := now },
            published := false, notified := none, logs := ["task.completed"] } := by
        unfold task_callback
        rw [if_neg (by simp)]
        dsimp only
        rw [if_neg ht, if_pos hs, hcb]
        dsimp only
        rw [if_neg hurl]
      rw [hcb] at key
      refine ⟨by rw [key], by rw [key], ?_, fun _ => ⟨by rw [key], by rw [key]⟩⟩
      intro cb' hcb' hu
      have hc : cb' = cb := (Option.some.inj hcb').symm
      subst hc
      exact absurd hurl0 hu

/-- Witness for C4 on a task with a submitter callback URL: notified once
and the record deleted, so Get answers 404. -/
theorem task_callback_success_spec_witness :
    (task_callback defaultSettings ("Bearer " ++ defaultSettings.api_gateway_internal_key)
      { task_id := "t1", status := .SUCCESS, result := some (.obj []) }
      (some sampleTaskCb) 0).stored = none ∧
    get_task (task_callback defaultSettings ("Bearer " ++ defaultSettings.api_gateway_internal_key)
      { task_id := "t1", status := .SUCCESS, result := some (.obj []) }
      (some sampleTaskCb) 0).stored = .error 404 ∧
    (task_callback defaultSettings ("Bearer " ++ defaultSettings.api_gateway_internal_key)
      { task_id := "t1", status := .SUCCESS, result := some (.obj []) }
      (some sampleTaskCb) 0).notified =
      some { url := "http://sub/cb", status := .SUCCESS, result := some (.obj []), error := none } := by
  have h := task_callback_success_spec defaultSettings
    { task_id := "t1", status := .SUCCESS, result := some (.obj []) } sampleTaskCb 0 rfl (by decide)
  exact h.2.2.1 { url := "http://sub/cb" } rfl (by decide)

/-- Counterexample for C4 as stated: with no submitter callback URL the
record survives the SUCCESS callback, so a subsequent Get does not answer
404. -/
theorem task_callback_success_cex :
    ((task_callback defaultSettings "Bearer internal-key"
      { task_id := "t1", status := .SUCCESS, result := some (.obj []) }
      (some sampleTask) 0).stored).isSome = true ∧
    (∃ t, get_task (task_callback defaultSettings "Bearer internal-key"
      { task_id := "t1", status := .SUCCESS, result := some (.obj []) }
      (some sampleTask) 0).stored = .ok t) :=
  ⟨rfl, ⟨_, rfl⟩⟩

/-- One always-fail driver step below the retry limit: the handler
re-publishes and the stored record advances its retry count by one. -/
theorem alwaysFail_step (st : Settings) (err : Option String) (now : Int)
    (task : TaskDetail) (fuel : Nat)
    (ht : ¬ now - task.created_at > st.task_max_wait_time)
    (hlt : task.retry_count < task.max_retries) :
    alwaysFailCallbacks st err now (some task) (fuel + 1) =
      1 + alwaysFailCallbacks st err now
        (some { task with
                retry_count := task.retry_count + 1,
                last_error := err, updated_at := now }) fuel := by
  have key := task_callback_failed_retry_eq st
    { task_id := "", status := .FAILED, error := err } task now rfl ht hlt
  simp [alwaysFailCallbacks, key]

/-- Terminating always-fail driver step at the retry limit: the handler no
longer re-publishes, so the count stops. -/
theorem alwaysFail_stop (st : Settings) (err : Option String) (now : Int)
    (task : TaskDetail) (fuel : Nat)
    (ht : ¬ now - task.created_at > st.task_max_wait_time)
    (hge : task.retry_count ≥ task.max_retries) :
    alwaysFailCallbacks st err now (some task) (fuel + 1) = 0 := by
  have hpub := (task_callback_failed_terminal_spec st
    { task_id := "", status := .FAILED, error := err } task now rfl ht hge).1
  simp [alwaysFailCallbacks, hpub]

/-- Counting lemma: starting `k` failures away from the retry limit, the
always-fail driver re-publishes exactly `k` times (given enough fuel). -/
theorem alwaysFail_count (st : Settings) (err : Option String) (now : Int) :
    ∀ (k fuel : Nat) (task : TaskDetail),
      ¬ now - task.created_at > st.task_max_wait_time →
      task.retry_count + k = task.max_retries → k < fuel →
      alwaysFailCallbacks st err now (some task) fuel = k := by
  intro k
  induction k with
  | zero =>
      intro fuel task ht hsum hfuel
      obtain ⟨f, rfl⟩ : ∃ f, fuel = f + 1 := ⟨fuel - 1, by omega⟩
      exact alwaysFail_stop st err now task f ht (by omega)
  | succ k ih =>
      intro fuel task ht hsum hfuel
      obtain ⟨f, rfl⟩ : ∃ f, fuel = f + 1 := ⟨fuel - 1, by omega⟩
      rw [alwaysFail_step st err now task f ht (by omega)]
      rw [ih f { task with
                 retry_count := task.retry_count + 1,
                 last_error := err, updated_at := now }
        ht (by show task.retry_count + 1 + k = task.max_retries; omega) (by omega)]
      omega

end AIFlow

namespace AIFlow

/-- Claim C3 (amended): on a FAILED callback for a live record, below the
retry limit the handler increments `retry_count` by exactly one, stores the
reported error as `last_error`, persists the record, re-publishes the
envelope and deletes nothing; at the limit it writes a terminal FAILED
record whose error mentions "Max retries exceeded", and notifies the
submitter and deletes the record only when a submitter callback URL is
present.  The stored retry count never exceeds `max_retries`, and with
`max_retries = 3` an always-failing task is published exactly 4 times. -/
theorem task_callback_failed_behavior (st : Settings) (req : TaskCallbackRequest)
    (task : TaskDetail) (now : Int) (eff : CallbackEffects)
    (heff : eff = task_callback st ("Bearer " ++ st.api_gateway_internal_key) req (some task) now)
    (hf : req.status = .FAILED)
    (ht : ¬ now - task.created_at > st.task_max_wait_time) :
    (task.retry_count < task.max_retries →
      eff = { outcome := .ok "retrying",
              stored := some { task with
                               retry_count := task.retry_count + 1,
                               last_error := req.error, updated_at := now },
              taskObj := some { task with
                                retry_count := task.retry_count + 1,
                                last_error := req.error, updated_at := now },
              published := true, notified := none, logs := ["task.retrying"] }) ∧
    (task.retry_count ≥ task.max_retries →
      eff.published = false ∧
      eff.taskObj = some { task with
                           status := .FAILED,
                           error := some ("Max retries exceeded (" ++ toString task.max_retries ++
                             "): " ++ optStr req.error),
                           last_error := req.error, updated_at := now } ∧
      (∀ cb, task.callback = some cb → cb.url ≠ "" →
        eff.stored = none ∧
        eff.notified = some { url := cb.url, status := .FAILED, result := none,
                              error := some ("Max retries exceeded (" ++
                                toString task.max_retries ++ "): " ++ optStr req.error) }) ∧
      ((task.callback = none ∨ ∃ cb, task.callback = some cb ∧ cb.url = "") →
        eff.stored = eff.taskObj ∧ eff.notified = none)) ∧
    (task.retry_count ≤ task.max_retries →
      ∀ t, eff.stored = some t → t.retry_count ≤ t.max_retries) ∧
    (task.retry_count = 0 → task.max_retries = 3 →
      1 + alwaysFailCallbacks st req.error now (some task) 5 = 4) := by
  subst heff
  refine ⟨?_, ?_, ?_, ?_⟩
  · intro hlt
    exact task_callback_failed_retry_eq st req task now hf ht hlt
  · intro hge
    have spec := task_callback_failed_terminal_spec st req task now hf ht hge
    exact ⟨spec.1, spec.2.1, spec.2.2.2.1, spec.2.2.2.2⟩
  · intro hbound t hstored
    by_cases hlt : task.retry_count < task.max_retries
    · rw [task_callback_failed_retry_eq st req task now hf ht hlt] at hstored
      simp only [Option.some.injEq] at hstored
      subst hstored
      exact (by omega : task.retry_count + 1 ≤ task.max_retries)
    · have hge : task.retry_count ≥ task.max_retries := Nat.le_of_not_lt hlt
      have spec := task_callback_failed_terminal_spec st req task now hf ht hge
      rcases spec.2.2.1 with hnone | heq
      · rw [hnone] at hstored
        exact Option.noConfusion hstored
      · rw [heq, spec.2.1] at hstored
        simp only [Option.some.injEq] at hstored
        subst hstored
        exact (hbound : task.retry_count ≤ task.max_retries)
  · intro h0 h3
    rw [alwaysFail_count st req.error now 3 5 task ht (by omega) (by omega)]

/-- Witness for C3: a first failure on a fresh task with a submitter
callback URL takes the retry branch, and the always-failing task is
published 4 times in total. -/
theorem task_callback_failed_behavior_witness :
    task_callback defaultSettings ("Bearer " ++ defaultSettings.api_gateway_internal_key)
      { task_id := "t1", status := .FAILED, error := some "boom" } (some sampleTaskCb) 0 =
      { outcome := .ok "retrying",
        stored := some { sampleTaskCb with
                         retry_count := sampleTaskCb.retry_count + 1,
                         last_error := some "boom", updated_at := 0 },
        taskObj := some { sampleTaskCb with
                          retry_count := sampleTaskCb.retry_count + 1,
                          last_error := some "boom", updated_at := 0 },
        published := true, notified := none, logs := ["task.retrying"] } ∧
    1 + alwaysFailCallbacks defaultSettings (some "boom") 0 (some sampleTaskCb) 5 = 4 := by
  have h := task_callback_failed_behavior defaultSettings
    { task_id := "t1", status := .FAILED, error := some "boom" } sampleTaskCb 0 _ rfl rfl (by decide)
  exact ⟨h.1 (by decide), h.2.2.2 rfl rfl⟩

/-- Counterexample for C3 as stated: at the retry limit with no submitter
callback URL configured, the handler neither notifies the submitter nor
deletes the record. -/
theorem task_callback_failed_cex :
    ((task_callback defaultSettings "Bearer internal-key"
      { task_id := "t1", status := .FAILED, error := some "boom" }
      (some { sampleTask with retry_count := 3 }) 0).stored).isSome = true ∧
    (task_callback defaultSettings "Bearer internal-key"
      { task_id := "t1", status := .FAILED, error := some "boom" }
      (some { sampleTask with retry_count := 3 }) 0).notified = none :=
  ⟨rfl, rfl⟩

/-- Claim C7 (amended): among the probed workers supporting the task type,
selection returns the idle worker with the smallest pending count when one
exists; otherwise the busy worker that also reports a non-empty current
task and satisfies the pending threshold, again with the smallest pending
count; otherwise no worker. -/
theorem select_forwarder_cases (ty : String) (mx : Nat) (fs : List ForwarderInfo) :
    (fs.filter (isIdleEligible ty) ≠ [] →
      ∃ c ∈ (fs.filter (isIdleEligible ty)).map candOf,
        selectForwarder ty mx fs = some c.url ∧
        ∀ d ∈ (fs.filter (isIdleEligible ty)).map candOf, c.pending ≤ d.pending) ∧
    (fs.filter (isIdleEligible ty) = [] →
      fs.filter (isLowLoadEligible ty mx) ≠ [] →
      ∃ c ∈ (fs.filter (isLowLoadEligible ty mx)).map candOf,
        selectForwarder ty mx fs = some c.url ∧
        ∀ d ∈ (fs.filter (isLowLoadEligible ty mx)).map candOf, c.pending ≤ d.pending) ∧
    (fs.filter (isIdleEligible ty) = [] →
      fs.filter (isLowLoadEligible ty mx) = [] →
      selectForwarder ty mx fs = none) := by
  rcases hfs : fs with _ | ⟨f, rest⟩
  · exact ⟨fun h => absurd rfl h, fun _ h => absurd rfl h, fun _ _ => rfl⟩
  · have hcc := collectCandidates_eq ty mx (f :: rest)
    refine ⟨?_, ?_, ?_⟩
    · intro hidle
      rcases hmap : (f :: rest).filter (isIdleEligible ty) with _ | ⟨a, l⟩
      · exact absurd hmap hidle
      · obtain ⟨c, hcmem, hmin, hminle⟩ := minByPending_spec (candOf a) (l.map candOf)
        refine ⟨c, by simpa [hmap] using hcmem, ?_, by simpa [hmap] using hminle⟩
        unfold selectForwarder
        rw [if_neg (by simp)]
        rw [hcc, hmap]
        simp only [List.map_cons, hmin]
    · intro hidle hlow
      rcases hmap : (f :: rest).filter (isLowLoadEligible ty mx) with _ | ⟨a, l⟩
      · exact absurd hmap hlow
      · obtain ⟨c, hcmem, hmin, hminle⟩ := minByPending_spec (candOf a) (l.map candOf)
        refine ⟨c, by simpa [hmap] using hcmem, ?_, by simpa [hmap] using hminle⟩
        have hmin' : List.foldl minStep none (candOf a :: l.map candOf) = some c := hmin
        unfold selectForwarder
        rw [if_neg (by simp)]
        rw [hcc, hmap, hidle]
        simp only [List.map_cons, List.map_nil, minByPending, List.foldl_nil, hmin']
    · intro hidle hlow
      unfold selectForwarder
      rw [if_neg (by simp)]
      rw [hcc, hidle, hlow]
      simp [minByPending]

/-- Witness for C7: two idle supporting workers; the one with the smaller
pending count is selected. -/
theorem select_forwarder_cases_witness :
    (∃ c ∈ ([⟨"s1", "u1", ["T"], false, none, 4⟩,
             ⟨"s2", "u2", ["T"], false, none, 1⟩] :
        List ForwarderInfo).filter (isIdleEligible "T") |>.map candOf,
      selectForwarder "T" 2 [⟨"s1", "u1", ["T"], false, none, 4⟩,
        ⟨"s2", "u2", ["T"], false, none, 1⟩] = some c.url ∧
      ∀ d ∈ ([⟨"s1", "u1", ["T"], false, none, 4⟩,
              ⟨"s2", "u2", ["T"], false, none, 1⟩] :
          List ForwarderInfo).filter (isIdleEligible "T") |>.map candOf,
        c.pending ≤ d.pending) :=
  (select_forwarder_cases "T" 2 _).1 (by decide)

/-- Counterexample for C7 as stated: a busy supporting worker within the
pending threshold but reporting no current task is skipped, and selection
returns no worker. -/
theorem select_forwarder_cases_cex :
    selectForwarder "T" 2 [⟨"s1", "u1", ["T"], true, none, 0⟩] = none ∧
    ("T" ∈ (⟨"s1", "u1", ["T"], true, none, 0⟩ : ForwarderInfo).supported ∧
      (⟨"s1", "u1", ["T"], true, none, 0⟩ : ForwarderInfo).busy = true ∧
      (⟨"s1", "u1", ["T"], true, none, 0⟩ : ForwarderInfo).pending ≤ 2) :=
  ⟨rfl, by decide⟩

/-- Claim C9 (amended): payload normalization preserves the shape (keys and
list positions) of the input; every string leaf whose stripped form is an
http(s) URL is mapped to that stripped form (hence kept unchanged exactly
when it carries no surrounding whitespace); and a payload that is already
normalized at every position — trimmed leaves that are http(s) URLs or
trigger neither conversion branch — is a fixed point. -/
theorem normalize_payload_props (taskId bucket : String) :
    (∀ x : JValue, shapeOf (normalize_json_payload_to_minio taskId bucket x) = shapeOf x) ∧
    (∀ s hint : String,
      (strStarts (pyStrip s) "http://" || strStarts (pyStrip s) "https://") = true →
      walkVal taskId bucket (.str s) hint = .str (pyStrip s)) ∧
    (∀ x : JValue, normalizedAtVal x "" = true →
      normalize_json_payload_to_minio taskId bucket x = x) := by
  refine ⟨?_, ?_, ?_⟩
  · intro x
    exact shape_walkVal taskId bucket x ""
  · intro s hint h
    simp only [walkVal, normalizeStr]
    rw [if_pos h]
  · intro x h
    exact normalized_walkVal taskId bucket x "" h

/-- Witness for C9 on concrete payloads: a one-key object keeps its shape, a
padded https leaf maps to its stripped form, and an already-normalized
object is returned unchanged. -/
theorem normalize_payload_props_witness :
    shapeOf (normalize_json_payload_to_minio "t1" "inputs" (.obj [("text", .str "hi")])) =
      shapeOf (.obj [("text", .str "hi")]) ∧
    walkVal "t1" "inputs" (.str " https://img.example/x.png ") "image" =
      .str (pyStrip " https://img.example/x.png ") ∧
    normalize_json_payload_to_minio "t1" "inputs"
      (.obj [("image", .str "https://img.example/x.png"), ("n", .num 3)]) =
      .obj [("image", .str "https://img.example/x.png"), ("n", .num 3)] :=
  ⟨(normalize_payload_props "t1" "inputs").1 _,
   (normalize_payload_props "t1" "inputs").2.1 _ _ (by decide),
   (normalize_payload_props "t1" "inputs").2.2 _ (by decide)⟩

/-- Counterexample for C9 as stated: an http leaf with trailing whitespace
is not preserved unchanged (it is stripped), so normalization applied to
this already-URL payload does not return an equal structure. -/
theorem normalize_payload_cex :
    normalize_json_payload_to_minio "t1" "inputs" (.arr [.str "http://a "]) ≠
      .arr [.str "http://a "] := by
  intro h
  rw [show normalize_json_payload_to_minio "t1" "inputs" (.arr [.str "http://a "]) =
      .arr [.str "http://a"] from rfl] at h
  injection h with h1
  injection h1 with h2 _
  injection h2 with h3
  exact absurd h3 (by decide)

end AIFlow
